import Mathlib

/-!
A verification development for `timeline_json2csv.py`, a converter from a
location-history JSON export to a flat CSV table.  The Python program is
shallowly embedded: JSON values become the inductive `Json`, Python's
`None`-propagating helpers become `Option`-valued functions, exceptions that
escape an expression become `Except PyErr`, and the pandas write-out is
modelled by the `Csv` structure.  Machine floats are idealised as `ℚ`
(the numeric literals exercised below, such as `12.5`, are exact in both).
-/

/- A JSON tree as produced by `json.load`: maps, sequences, and scalars.
`Elems` and `Fields` are the spines of arrays and objects; keeping them as
dedicated mutual inductives lets every traversal be structurally recursive. -/
mutual
/-- A JSON tree as produced by `json.load`. -/
inductive Json where
  | null
  | bool (b : Bool)
  | num (q : ℚ)
  | str (s : String)
  | arr (items : Elems)
  | obj (fields : Fields)

inductive Elems where
  | nil
  | cons (hd : Json) (tl : Elems)

inductive Fields where
  | nil
  | cons (key : String) (val : Json) (tl : Fields)
end

/-- Build an array node from a plain list (literal convenience). -/
def jarr (xs : List Json) : Json := Json.arr (xs.foldr Elems.cons Elems.nil)

/-- Build an object node from a plain association list (literal convenience). -/
def jobj (kvs : List (String × Json)) : Json :=
  Json.obj (kvs.foldr (fun kv tl => Fields.cons kv.1 kv.2 tl) Fields.nil)

/-- The elements of an array spine as a plain list. -/
def elemsList : Elems → List Json
  | .nil => []
  | .cons hd tl => hd :: elemsList tl

/-- The keys of an object spine, in insertion order (Python dict order). -/
def fieldsKeys : Fields → List String
  | .nil => []
  | .cons k _ tl => k :: fieldsKeys tl

/-- Number of fields of an object spine. -/
def fieldsLength : Fields → ℕ
  | .nil => 0
  | .cons _ _ tl => fieldsLength tl + 1

/-- Number of elements of an array spine. -/
def elemsLength : Elems → ℕ
  | .nil => 0
  | .cons _ tl => elemsLength tl + 1

/-- First value stored under a key, as Python dict lookup (keys produced by
`json.load` are unique, so first = only). -/
def lookupF : Fields → String → Option Json
  | .nil, _ => none
  | .cons k v tl, key => if k == key then some v else lookupF tl key

/-- Python `key in dict`. -/
def hasKeyF : Fields → String → Bool
  | .nil, _ => false
  | .cons k _ tl, key => (k == key) || hasKeyF tl key

/-- Python truthiness of a loaded JSON value (`None`, `False`, `0`, `""`,
`[]`, `{}` are falsy). -/
def truthy : Json → Bool
  | .null => false
  | .bool b => b
  | .num q => decide (q ≠ 0)
  | .str s => !s.data.isEmpty
  | .arr xs => match xs with | .nil => false | _ => true
  | .obj kvs => match kvs with | .nil => false | _ => true

/-- Exceptions that can escape an expression of the script and reach the
top-level handler. -/
inductive PyErr where
  | attributeError
  | typeError
deriving DecidableEq

/-- Python `x.get(key, default)`: only dicts have `.get`; on anything else an
`AttributeError` propagates. -/
def pyGetJ (j : Json) (key : String) (default : Json) : Except PyErr Json :=
  match j with
  | .obj kvs => .ok ((lookupF kvs key).getD default)
  | _ => .error .attributeError

/-- Python `len(x)` on a loaded JSON value. -/
def pyLen (j : Json) : Except PyErr ℕ :=
  match j with
  | .arr xs => .ok (elemsLength xs)
  | .str s => .ok s.length
  | .obj kvs => .ok (fieldsLength kvs)
  | _ => .error .typeError

/-- Python `for x in v`: lists yield elements, strings yield 1-character
strings, dicts yield their keys; other values raise `TypeError`. -/
def pyIter (j : Json) : Except PyErr (List Json) :=
  match j with
  | .arr xs => .ok (elemsList xs)
  | .str s => .ok (s.data.map (fun c => Json.str (String.mk [c])))
  | .obj kvs => .ok ((fieldsKeys kvs).map Json.str)
  | _ => .error .typeError

/-- Python `a or b` specialised to the optional strings flowing through the
script: `None` and the empty string are falsy and fall through to `b`. -/
def pyOr (a b : Option String) : Option String :=
  match a with
  | some s => if s = "" then b else some s
  | none => b

/-- Exception-free `mapM` over `Except` (a Python `for` loop that can raise). -/
def mapME (f : α → Except PyErr β) : List α → Except PyErr (List β)
  | [] => .ok []
  | a :: rest => do
      let b ← f a
      let bs ← mapME f rest
      pure (b :: bs)

/- ### Character-level parsing utilities (shared by both normalizers) -/

/-- Decimal digit test. -/
def isDigitCh (c : Char) : Bool := 48 ≤ c.toNat && c.toNat ≤ 57

/-- Value of a decimal digit character. -/
def digitVal (c : Char) : ℕ := c.toNat - 48

/-- Value of a digit string, most significant first. -/
def digitsToNat (ds : List Char) : ℕ := ds.foldl (fun a c => 10 * a + digitVal c) 0

/-- Longest digit prefix and the rest. -/
def takeDigits : List Char → List Char × List Char
  | [] => ([], [])
  | c :: cs =>
      if isDigitCh c then
        let p := takeDigits cs
        (c :: p.1, p.2)
      else ([], c :: cs)

/-- Exactly `k` digits, or failure. -/
def readFixed : ℕ → List Char → Option (ℕ × List Char)
  | 0, cs => some (0, cs)
  | k + 1, [] => (fun _ => none) k
  | k + 1, c :: cs =>
      if isDigitCh c then
        (readFixed k cs).map (fun p => (digitVal c * 10 ^ k + p.1, p.2))
      else none

/-- Strip leading and trailing whitespace. -/
def stripWs (cs : List Char) : List Char :=
  ((cs.dropWhile Char.isWhitespace).reverse.dropWhile Char.isWhitespace).reverse

/-- Optional sign, returned as an integer factor. -/
def readSign : List Char → Int × List Char
  | [] => (1, [])
  | c :: cs =>
      if c = '-' then (-1, cs)
      else if c = '+' then (1, cs)
      else (1, c :: cs)

/-- Optional fractional part: a dot followed by its digits (a bare trailing
dot is legal for `float`, as in `"1."`). -/
def readFrac : List Char → Option (List Char) × List Char
  | [] => (none, [])
  | c :: cs =>
      if c = '.' then
        let p := takeDigits cs
        (some p.1, p.2)
      else (none, c :: cs)

/-- Optional exponent part, `e`/`E`, optional sign, at least one digit;
`none` when the exponent marker is present but malformed. -/
def readExp : List Char → Option (Int × List Char)
  | [] => some (0, [])
  | c :: cs =>
      if c = 'e' ∨ c = 'E' then
        let sp : Int × List Char :=
          match cs with
          | d :: ds => if d = '-' then (-1, ds) else if d = '+' then (1, ds) else (1, d :: ds)
          | [] => (1, [])
        match takeDigits sp.2 with
        | ([], _) => none
        | (ds, rest) => some (sp.1 * (digitsToNat ds : Int), rest)
      else some (0, c :: cs)

/-- Python `float(s)` on the strings this script feeds it, idealised to `ℚ`:
optional surrounding whitespace, optional sign, decimal mantissa, optional
exponent.  Model boundary: `inf`/`nan` and digit-group underscores, which
CPython also accepts, are outside the model (no claim involves them). -/
def pyFloat (cs : List Char) : Option ℚ :=
  let cs0 := stripWs cs
  let sg := readSign cs0
  let ip := takeDigits sg.2
  let fp := readFrac ip.2
  let fracDigits := (fp.1).getD []
  if ip.1 = [] ∧ fracDigits = [] then none
  else
    -- value = sign * (intpart.fracpart) * 10^e, assembled with one `mkRat`
    let mantissa : Int := sg.1 * (digitsToNat ip.1 * 10 ^ fracDigits.length + digitsToNat fracDigits)
    match readExp fp.2 with
    | some (e, []) =>
        if 0 ≤ e then some (mkRat (mantissa * 10 ^ e.toNat) (10 ^ fracDigits.length))
        else some (mkRat mantissa (10 ^ fracDigits.length * 10 ^ e.natAbs))
    | _ => none

/- ### Datetime normalizer (`parse_datetime`, source lines 8-35) -/

/-- A parsed `datetime` as built by `dateutil.parser.isoparse`: calendar
fields plus an optional UTC offset in minutes (`none` = naive). -/
structure DT where
  year : ℕ
  month : ℕ
  day : ℕ
  hour : ℕ
  minute : ℕ
  second : ℕ
  usec : ℕ
  tz : Option Int
deriving DecidableEq

/-- Leap-year rule of the proleptic Gregorian calendar (`datetime`). -/
def isLeap (y : ℕ) : Bool := (y % 4 == 0 && y % 100 != 0) || y % 400 == 0

/-- Days in a month, as validated by the `datetime` constructor. -/
def daysInMonth (y mo : ℕ) : ℕ :=
  if mo = 2 then (if isLeap y then 29 else 28)
  else if mo = 4 ∨ mo = 6 ∨ mo = 9 ∨ mo = 11 then 30
  else 31

/-- Range validation performed by the `datetime` constructor (year 1-9999,
valid month/day, hour below 24, minute/second below 60). -/
def mkDT (y mo d h mi s us : ℕ) (tz : Option Int) : Option DT :=
  if 1 ≤ y ∧ y ≤ 9999 ∧ 1 ≤ mo ∧ mo ≤ 12 ∧ 1 ≤ d ∧ d ≤ daysInMonth y mo
      ∧ h ≤ 23 ∧ mi ≤ 59 ∧ s ≤ 59 then
    some ⟨y, mo, d, h, mi, s, us, tz⟩
  else none

/-- Trailing timezone designator: nothing (naive), `Z`, or `±HH`, `±HHMM`,
`±HH:MM` with the offset bounded below a day. -/
def parseTz (cs : List Char) : Option (Option Int × List Char) :=
  match cs with
  | [] => some (none, [])
  | c :: rest =>
      if c = 'Z' then some (some 0, rest)
      else if c = '+' ∨ c = '-' then do
        let sgn : Int := if c = '-' then -1 else 1
        let (hh, cs1) ← readFixed 2 rest
        let mmp : ℕ × List Char ←
          match cs1 with
          | c1 :: cs1a =>
              if c1 = ':' then (readFixed 2 cs1a).map (fun p => (p.1, p.2))
              else if isDigitCh c1 then (readFixed 2 (c1 :: cs1a)).map (fun p => (p.1, p.2))
              else some (0, c1 :: cs1a)
          | [] => some (0, [])
        if hh ≤ 23 ∧ mmp.1 ≤ 59 then
          some (some (sgn * ((hh : Int) * 60 + (mmp.1 : Int))), mmp.2)
        else none
      else none

/-- Clock part `HH[:MM[:SS[.f{1-6}]]]` (comma decimal mark also accepted),
returning hour, minute, second, microseconds, rest. -/
def parseHMS (cs : List Char) : Option (ℕ × ℕ × ℕ × ℕ × List Char) := do
  let (h, cs1) ← readFixed 2 cs
  match cs1 with
  | ':' :: cs2 => do
      let (mi, cs3) ← readFixed 2 cs2
      match cs3 with
      | ':' :: cs4 => do
          let (s, cs5) ← readFixed 2 cs4
          match cs5 with
          | c :: cs6 =>
              if c = '.' ∨ c = ',' then
                match takeDigits cs6 with
                | (ds, rest) =>
                    if 1 ≤ ds.length ∧ ds.length ≤ 6 then
                      some (h, mi, s, digitsToNat ds * 10 ^ (6 - ds.length), rest)
                    else none
              else some (h, mi, s, 0, c :: cs6)
          | [] => some (h, mi, s, 0, [])
      | _ => some (h, mi, 0, 0, cs3)
  | _ => some (h, 0, 0, 0, cs1)

/-- Model of `dateutil.parser.isoparse` on extended-format ISO-8601 strings:
`YYYY[-MM[-DD[THH[:MM[:SS[.ffffff]]]]]]` with an optional trailing offset.
Model boundary: the basic format without separators and ISO week/ordinal
dates, which `isoparse` also accepts, are outside the model (the script's
data uses the extended format exclusively). -/
def isoparse (str : String) : Option DT := do
  let cs := str.data
  let (y, cs1) ← readFixed 4 cs
  match cs1 with
  | [] => mkDT y 1 1 0 0 0 0 none
  | c :: cs2 =>
      if c = '-' then do
        let (mo, cs3) ← readFixed 2 cs2
        match cs3 with
        | [] => mkDT y mo 1 0 0 0 0 none
        | c2 :: cs4 =>
            if c2 = '-' then do
              let (d, cs5) ← readFixed 2 cs4
              match cs5 with
              | [] => mkDT y mo d 0 0 0 0 none
              | t :: cs6 =>
                  if t = 'T' then do
                    let (h, mi, s, us, cs7) ← parseHMS cs6
                    let (tz, cs8) ← parseTz cs7
                    match cs8 with
                    | [] => mkDT y mo d h mi s us tz
                    | _ => none
                  else none
            else none
      else none

/-- Zero-padded `k`-digit decimal rendering. -/
def pad (k n : ℕ) : List Char :=
  (List.range k).map (fun i => Char.ofNat (48 + n / 10 ^ (k - 1 - i) % 10))

/-- The value of `parsed_dt.strftime(%Y-%m-%d %H:%M:%S.%f)[:-3]` (source
line 23): dropping the last three characters of the six-digit `%f` field
keeps milliseconds. -/
def fmtDt (dt : DT) : String :=
  String.mk (pad 4 dt.year ++ '-' :: pad 2 dt.month ++ '-' :: pad 2 dt.day
    ++ ' ' :: pad 2 dt.hour ++ ':' :: pad 2 dt.minute ++ ':' :: pad 2 dt.second
    ++ '.' :: pad 3 (dt.usec / 1000))

/-- The value of `parsed_dt.strftime(%z)` (source line 26): empty for a naive
datetime, otherwise sign plus hours plus minutes. -/
def zfmt : Option Int → List Char
  | none => []
  | some m =>
      (if m < 0 then '-' else '+') :: pad 2 (m.natAbs / 60) ++ pad 2 (m.natAbs % 60)

/-- Embedding of `parse_datetime` (source lines 8-35).  The argument is the
raw JSON value handed to it by `.get` (possibly `null` = Python `None`); the
result is the `(formatted datetime, timezone offset)` pair, `(none, none)`
on empty input or any parse failure.  The `try/except` around the body means
no failure ever escapes; totality of this function is that fact. -/
def parse_datetime (j : Json) : Option String × Option String :=
  if truthy j then
    match j with
    | .str s =>
        match isoparse s with
        | some dt =>
            let formatted := fmtDt dt
            let offsetRaw := zfmt dt.tz
            -- source line 30: f-string reformat +0500 to +05:00
            let offset :=
              if offsetRaw ≠ [] then
                String.mk (offsetRaw.take 3 ++ ':' :: offsetRaw.drop 3)
              else String.mk offsetRaw
            (some formatted, some offset)
        | none => (none, none)
    | _ => (none, none)
  else (none, none)

/- ### Coordinate normalizer (`clean_and_parse_coordinates`, source lines 37-60) -/

/-- Python `s.split(sep)` for a one-character separator. -/
def splitComma : List Char → List (List Char)
  | [] => [[]]
  | c :: cs =>
      if c = ',' then [] :: splitComma cs
      else
        match splitComma cs with
        | g :: gs => (c :: g) :: gs
        | [] => [[c]]

/-- The cleaning pipeline of source lines 47-51: drop non-ASCII characters
(`encode(ascii, ignore)`), drop the degree sign (already non-ASCII, kept for
fidelity), drop spaces, split on commas. -/
def cleanComps (s : String) : List (List Char) :=
  let cleaned1 := s.data.filter (fun c => c.toNat < 128)
  let cleaned2 := cleaned1.filter (fun c => c.toNat ≠ 176)
  let cleaned3 := cleaned2.filter (fun c => c ≠ ' ')
  splitComma cleaned3

/-- Embedding of `clean_and_parse_coordinates` (source lines 37-60): on a
string that cleans into exactly two float components, the parsed pair;
otherwise `(none, none)` (non-string input falls to the final `return`,
float failures are swallowed by the `except`). -/
def clean_and_parse_coordinates (point : Json) : Option ℚ × Option ℚ :=
  match point with
  | .str s =>
      match cleanComps s with
      | [a, b] =>
          match pyFloat a, pyFloat b with
          | some lat, some lon => (some lat, some lon)
          | _, _ => (none, none)
      | _ => (none, none)
  | _ => (none, none)

/- ### Recursive position finder (`find_positions`, source lines 83-103) -/

/-- The position criterion of source lines 88 and 99: a dict with both a
`LatLng` and a `timestamp` key. -/
def isPositionF (kvs : Fields) : Bool :=
  hasKeyF kvs "LatLng" && hasKeyF kvs "timestamp"

/-- The node itself when it is a dict meeting the position criterion, else
nothing; this is exactly the membership check the source performs both in its
dict branch (line 88) and, again, on dict elements of a list (line 99). -/
def selfMatch (j : Json) : List Json :=
  match j with
  | .obj kvs => if isPositionF kvs then [Json.obj kvs] else []
  | _ => []

mutual
/-- Embedding of the recursive `find_positions` (source lines 83-103): the
dict branch reports the node and recurses into its values; the list branch
checks each dict element and then recurses into every element. -/
def find_positions : Json → List Json
  | .obj kvs => selfMatch (Json.obj kvs) ++ find_positions_values kvs
  | .arr xs => find_positions_items xs
  | _ => []

/-- The `for value in obj.values()` loop of source lines 92-93. -/
def find_positions_values : Fields → List Json
  | .nil => []
  | .cons _ v tl => find_positions v ++ find_positions_values tl

/-- The `for item in obj` loop of source lines 97-101: the extra membership
check on dict items precedes the recursive call on the same item. -/
def find_positions_items : Elems → List Json
  | .nil => []
  | .cons item tl => selfMatch item ++ (find_positions item ++ find_positions_items tl)
end

mutual
/-- Modelled from the spec (section 4.2): the ordered pre-order sequence of
every matching map node, each structural node reported exactly once.  Written
for comparison with `find_positions`, which is translated from the source. -/
def spec_positions : Json → List Json
  | .obj kvs => selfMatch (Json.obj kvs) ++ spec_positions_values kvs
  | .arr xs => spec_positions_items xs
  | _ => []

/-- Pre-order walk of an object spine for `spec_positions`. -/
def spec_positions_values : Fields → List Json
  | .nil => []
  | .cons _ v tl => spec_positions v ++ spec_positions_values tl

/-- Pre-order walk of an array spine for `spec_positions`. -/
def spec_positions_items : Elems → List Json
  | .nil => []
  | .cons item tl => spec_positions item ++ spec_positions_items tl
end

mutual
/-- The amended reference walk: pre-order, parent before children, sibling
order preserved, where a matching node occurring as a map value (or as the
root) is reported once and a matching node occurring directly as a sequence
element is reported twice, adjacently, before its descendants. -/
def dup_positions : Json → List Json
  | .obj kvs => selfMatch (Json.obj kvs) ++ dup_positions_values kvs
  | .arr xs => dup_positions_items xs
  | _ => []

/-- Map values contribute their matches once each, in order. -/
def dup_positions_values : Fields → List Json
  | .nil => []
  | .cons _ v tl => dup_positions v ++ dup_positions_values tl

/-- Sequence elements contribute their own match twice, then their
descendants' matches. -/
def dup_positions_items : Elems → List Json
  | .nil => []
  | .cons item tl =>
      selfMatch item ++ selfMatch item ++ dup_children item ++ dup_positions_items tl

/-- The matches contributed by the descendants of a node, the node itself
excluded. -/
def dup_children : Json → List Json
  | .obj kvs => dup_positions_values kvs
  | .arr xs => dup_positions_items xs
  | _ => []
end

/- ### Output rows -/

/-- A cell value of an output row: Python `None`, a string, a float
(idealised as `ℚ`), or any other JSON value copied through unchanged. -/
inductive Val where
  | none
  | str (s : String)
  | num (q : ℚ)
  | raw (j : Json)

/-- A JSON value carried into a row (Python keeps the loaded object; `null`
is `None`, strings and numbers keep their type). -/
def jsonVal : Json → Val
  | .null => .none
  | .str s => .str s
  | .num q => .num q
  | j => .raw j

/-- An optional formatted string as a cell. -/
def optStrVal : Option String → Val
  | Option.none => .none
  | some s => .str s

/-- An optional parsed coordinate as a cell. -/
def optNumVal : Option ℚ → Val
  | Option.none => .none
  | some q => .num q

/-- One output row: the column-to-value mapping built by a dict literal of
the source, in literal order. -/
def Row := List (String × Val)

/-- Value of a row at a column, `none` when the row does not use the column. -/
def rowGet? (r : Row) (c : String) : Option Val :=
  (r.find? (fun kv => kv.1 == c)).map (fun kv => kv.2)

/-- Rendering of a scalar by Python `str`; reprs inside containers quote
strings.  Model boundary: float formatting and string escaping are not
reproduced (no claim inspects this text). -/
def numText (q : ℚ) : String :=
  toString q.num ++ (if q.den = 1 then "" else "/" ++ toString q.den)

mutual
/-- Python `repr` of a loaded JSON value (shape only, see `numText`). -/
def pyReprJ : Json → String
  | .null => "None"
  | .bool b => if b then "True" else "False"
  | .num q => numText q
  | .str s => String.mk [Char.ofNat 39] ++ s ++ String.mk [Char.ofNat 39]
  | .arr xs => "[" ++ pyReprE xs ++ "]"
  | .obj kvs => "\x7b" ++ pyReprF kvs ++ "\x7d"

/-- Comma-separated reprs of array elements. -/
def pyReprE : Elems → String
  | .nil => ""
  | .cons h .nil => pyReprJ h
  | .cons h tl => pyReprJ h ++ ", " ++ pyReprE tl

/-- Comma-separated reprs of object entries. -/
def pyReprF : Fields → String
  | .nil => ""
  | .cons k v .nil => String.mk [Char.ofNat 39] ++ k ++ String.mk [Char.ofNat 39] ++ ": " ++ pyReprJ v
  | .cons k v tl =>
      String.mk [Char.ofNat 39] ++ k ++ String.mk [Char.ofNat 39] ++ ": " ++ pyReprJ v ++ ", " ++ pyReprF tl
end

/-- Python `str(x)`: a string prints as itself, everything else as its repr. -/
def pyStr : Json → String
  | .str s => s
  | j => pyReprJ j

/-- Total `.get(key)` on the map nodes returned by `find_positions` (they
are always dicts, so no `AttributeError` can occur here; the non-map branch
is unreachable). -/
def objGet (j : Json) (key : String) : Json :=
  match j with
  | .obj kvs => (lookupF kvs key).getD Json.null
  | _ => Json.null

/-- Total `.get(key, default)` where the default is already a cell value; a
present `null` is Python `None` and wins over the default, as `dict.get`
does. -/
def objGetD (j : Json) (key : String) (default : Val) : Val :=
  match j with
  | .obj kvs =>
      match lookupF kvs key with
      | some v => jsonVal v
      | Option.none => default
  | _ => default

/-- The `position_entry` dict of source lines 117-128, for one node found by
`find_positions`. -/
def position_entry (position : Json) : Row :=
  let latlng := objGet position "LatLng"
  let cc := clean_and_parse_coordinates latlng
  let td := parse_datetime (objGet position "timestamp")
  [("Time", optStrVal td.1),
   ("Time Offset", optStrVal td.2),
   ("Point", Val.str (pyStr latlng)),
   ("Latitude", optNumVal cc.1),
   ("Longitude", optNumVal cc.2),
   ("Accuracy Meters", jsonVal (objGet position "accuracyMeters")),
   ("Altitude Meters", jsonVal (objGet position "altitudeMeters")),
   ("Source", objGetD position "source" (Val.str "")),
   ("Speed Meters/Second", objGetD position "speedMetersPerSecond" (Val.num 0)),
   ("Segment Type", Val.str "Position")]

/-- The `path_entry` dict of source lines 147-158, from the segment's parsed
times and the point's `point` and `time` values; the row's own time and
offset fall back to the segment's start values through Python `or`. -/
def path_entry (start_time start_offset end_time end_offset : Option String)
    (point timeJ : Json) : Row :=
  let pd := parse_datetime timeJ
  let cc := clean_and_parse_coordinates point
  [("Time", optStrVal (pyOr pd.1 start_time)),
   ("Time Offset", optStrVal (pyOr pd.2 start_offset)),
   ("Start Time", optStrVal start_time),
   ("Start Time Offset", optStrVal start_offset),
   ("End Time", optStrVal end_time),
   ("End Time Offset", optStrVal end_offset),
   ("Point", Val.str (pyStr point)),
   ("Latitude", optNumVal cc.1),
   ("Longitude", optNumVal cc.2),
   ("Segment Type", Val.str "Timeline Path")]

/-- One iteration of the `for path in timeline_paths` loop (source lines
142-159): `.get` on a non-dict element raises. -/
def path_row (start_time start_offset end_time end_offset : Option String)
    (path : Json) : Except PyErr Row := do
  let point ← pyGetJ path "point" Json.null
  let timeJ ← pyGetJ path "time" Json.null
  pure (path_entry start_time start_offset end_time end_offset point timeJ)

/-- The `visit_entry` dict of source lines 162-181 (the duplicated pure
`placeLocation` lookup of lines 178-179 is computed once). -/
def visit_row (start_time start_offset end_time end_offset : Option String)
    (visit : Json) : Except PyErr Row := do
  let top_candidate ← pyGetJ visit "topCandidate" (Json.obj Fields.nil)
  let hierarchy ← pyGetJ visit "hierarchyLevel" Json.null
  let vprob ← pyGetJ visit "probability" Json.null
  let placeId ← pyGetJ top_candidate "placeId" Json.null
  let semType ← pyGetJ top_candidate "semanticType" Json.null
  let pprob ← pyGetJ top_candidate "probability" Json.null
  let placeLoc ← pyGetJ top_candidate "placeLocation" (Json.obj Fields.nil)
  let latLng ← pyGetJ placeLoc "latLng" Json.null
  pure [("Time", optStrVal start_time),
        ("Time Offset", optStrVal start_offset),
        ("Start Time", optStrVal start_time),
        ("Start Time Offset", optStrVal start_offset),
        ("End Time", optStrVal end_time),
        ("End Time Offset", optStrVal end_offset),
        ("Segment Type", Val.str "Visit"),
        ("Hierarchy Level", jsonVal hierarchy),
        ("Visit Probability", jsonVal vprob),
        ("Place ID", jsonVal placeId),
        ("Semantic Type", jsonVal semType),
        ("Place Probability", jsonVal pprob),
        ("Latitude", optNumVal (clean_and_parse_coordinates latLng).1),
        ("Longitude", optNumVal (clean_and_parse_coordinates latLng).2)]

/-- The `activity_entry` dict of source lines 184-206. -/
def activity_row (start_time start_offset end_time end_offset : Option String)
    (activity : Json) : Except PyErr Row := do
  let startD ← pyGetJ activity "start" (Json.obj Fields.nil)
  let startLL ← pyGetJ startD "latLng" Json.null
  let endD ← pyGetJ activity "end" (Json.obj Fields.nil)
  let endLL ← pyGetJ endD "latLng" Json.null
  let ccs := clean_and_parse_coordinates startLL
  let cce := clean_and_parse_coordinates endLL
  let top_candidate ← pyGetJ activity "topCandidate" (Json.obj Fields.nil)
  let dist ← pyGetJ activity "distanceMeters" Json.null
  let atype ← pyGetJ top_candidate "type" Json.null
  let aprob ← pyGetJ top_candidate "probability" Json.null
  pure [("Time", optStrVal start_time),
        ("Time Offset", optStrVal start_offset),
        ("Start Time", optStrVal start_time),
        ("Start Time Offset", optStrVal start_offset),
        ("End Time", optStrVal end_time),
        ("End Time Offset", optStrVal end_offset),
        ("Segment Type", Val.str "Activity"),
        ("Start Latitude", optNumVal ccs.1),
        ("Start Longitude", optNumVal ccs.2),
        ("End Latitude", optNumVal cce.1),
        ("End Longitude", optNumVal cce.2),
        ("Distance Meters", jsonVal dist),
        ("Activity Type", jsonVal atype),
        ("Activity Probability", jsonVal aprob)]

/-- One iteration of the `for segment in semantic_segments` loop (source
lines 136-206): parse start and end once, then path rows in order, then at
most one visit row, then at most one activity row — independent optional
extractions, appended in this order. -/
def segment_rows (segment : Json) : Except PyErr (List Row) := do
  let stJ ← pyGetJ segment "startTime" Json.null
  let st := parse_datetime stJ
  let etJ ← pyGetJ segment "endTime" Json.null
  let et := parse_datetime etJ
  let tpJ ← pyGetJ segment "timelinePath" (Json.arr Elems.nil)
  let paths ← pyIter tpJ
  let pathRows ← mapME (path_row st.1 st.2 et.1 et.2) paths
  let visitJ ← pyGetJ segment "visit" Json.null
  let visitRows ←
    if truthy visitJ then do
      let r ← visit_row st.1 st.2 et.1 et.2 visitJ
      pure [r]
    else pure ([] : List Row)
  let activityJ ← pyGetJ segment "activity" Json.null
  let activityRows ←
    if truthy activityJ then do
      let r ← activity_row st.1 st.2 et.1 et.2 activityJ
      pure [r]
    else pure ([] : List Row)
  pure (pathRows ++ visitRows ++ activityRows)

/-- The whole segment phase (source lines 133-206): read
`data.get('semanticSegments', [])` — an `AttributeError` on a non-dict root
— take its `len` for the progress message, then iterate. -/
def doc_segment_rows (data : Json) : Except PyErr (List Row) := do
  let segsJ ← pyGetJ data "semanticSegments" (Json.arr Elems.nil)
  let _ ← pyLen segsJ
  let segs ← pyIter segsJ
  let rowss ← mapME segment_rows segs
  pure rowss.flatten

/-- Everything appended to `timeline_data` (source lines 80-206): the rows of
every found position, then the rows of every semantic segment. -/
def extract_rows (data : Json) : Except PyErr (List Row) := do
  let posRows := (find_positions data).map position_entry
  let segRows ← doc_segment_rows data
  pure (posRows ++ segRows)

/- ### Row assembler and writer (source lines 208-231) -/

/-- Lexicographic order on code points, Python string `<` as numpy sorts
object columns. -/
def charListLe : List Char → List Char → Bool
  | [], _ => true
  | _ :: _, [] => false
  | a :: va, b :: vb =>
      if a.toNat < b.toNat then true
      else if b.toNat < a.toNat then false
      else charListLe va vb

/-- Sort key of a row: its `Time` string, or nothing when the time is the
missing marker. -/
def rowTime (r : Row) : Option String :=
  match rowGet? r "Time" with
  | some (.str s) => some s
  | _ => none

/-- Comparison used for the sort: ascending by `Time`, missing times placed
last (`sort_values` with `na_position` last).  Model boundary: the source
sorts with pandas' default quicksort, whose ordering of equal keys is not
specified; this model fixes one stable order. -/
def timeLe (a b : Option String) : Bool :=
  match a, b with
  | Option.none, Option.none => true
  | Option.none, some _ => false
  | some _, Option.none => true
  | some x, some y => charListLe x.data y.data

/-- Insert into a sorted row list, after any row with an equal-or-smaller
key (so equal keys keep their relative order). -/
def insertRow (r : Row) : List Row → List Row
  | [] => [r]
  | x :: xs =>
      if timeLe (rowTime x) (rowTime r) then x :: insertRow r xs
      else r :: x :: xs

/-- The `df.sort_values('Time')` of source lines 217-218 (every row literal
has a `Time` key, so the column always exists). -/
def sortRows : List Row → List Row
  | [] => []
  | r :: rest => insertRow r (sortRows rest)

/-- The columns of `pd.DataFrame(timeline_data)` (source line 214): the union
of the rows' keys, ordered by first appearance. -/
def df_columns (rows : List Row) : List String :=
  rows.foldl (fun acc r => acc ++ (r.map Prod.fst).filter (fun k => !(acc.contains k))) []

/-- A cell as written by `to_csv`: a column the row does not use — and a
`None` value — is rendered empty.  Model boundary: numeric formatting and
CSV quoting of the present values are not reproduced (no claim inspects
them). -/
def renderCell : Option Val → String
  | Option.none => ""
  | some .none => ""
  | some (.str s) => s
  | some (.num q) => numText q
  | some (.raw j) => pyReprJ j

/-- The written file: a header row naming every column, then one rendered
line per data row. -/
structure Csv where
  header : List String
  lines : List (List String)

/-- Assembly of the written file from the extracted rows (source lines
213-224): columns fixed at `DataFrame` construction, rows sorted by `Time`,
each line rendering every column of the header. -/
def toCsv (rows : List Row) : Csv :=
  { header := df_columns rows
    lines := (sortRows rows).map (fun r => (df_columns rows).map (fun c => renderCell (rowGet? r c))) }

/-- The observable outcome of `convert_timeline_to_csv` on a loaded
document: a caught error reported by the top-level handler (no file), the
empty-result warning (no file), or a written file. -/
inductive Outcome where
  | errorCaught (e : PyErr)
  | emptyWarning
  | written (c : Csv)

/-- Embedding of `convert_timeline_to_csv` after the JSON load (source lines
80-231): extract all rows — any escaped exception is caught by the
`try/except` of lines 69 and 233 — warn and write nothing when no rows were
extracted (lines 209-211), otherwise sort and write. -/
def convert_timeline (data : Json) : Outcome :=
  match extract_rows data with
  | .error e => .errorCaught e
  | .ok rows => if rows.isEmpty then .emptyWarning else .written (toCsv rows)

/- ### Supporting lemmas -/

/-- Unfolding of `dup_positions` through `selfMatch` and `dup_children`. -/
theorem dup_positions_unfold : ∀ j : Json, dup_positions j = selfMatch j ++ dup_children j
  | .null => rfl
  | .bool _ => rfl
  | .num _ => rfl
  | .str _ => rfl
  | .arr _ => by simp only [dup_positions, dup_children, selfMatch, List.nil_append]
  | .obj _ => by simp only [dup_positions, dup_children]

mutual
/-- Every node contributes its own match followed by its descendants'
duplicated matches. -/
theorem find_dup_aux : ∀ j : Json, find_positions j = selfMatch j ++ dup_children j
  | .null => rfl
  | .bool _ => rfl
  | .num _ => rfl
  | .str _ => rfl
  | .arr xs => by
      simp only [find_positions, dup_children, selfMatch, List.nil_append]
      exact find_dup_aux_items xs
  | .obj kvs => by
      simp only [find_positions, dup_children, selfMatch]
      rw [find_dup_aux_values kvs]

/-- Object spines agree between the source walk and the reference walk. -/
theorem find_dup_aux_values : ∀ kvs : Fields,
    find_positions_values kvs = dup_positions_values kvs
  | .nil => rfl
  | .cons _ v tl => by
      simp only [find_positions_values, dup_positions_values]
      rw [find_dup_aux v, find_dup_aux_values tl, ← dup_positions_unfold v]

/-- Array spines agree between the source walk and the reference walk. -/
theorem find_dup_aux_items : ∀ xs : Elems,
    find_positions_items xs = dup_positions_items xs
  | .nil => rfl
  | .cons item tl => by
      simp only [find_positions_items, dup_positions_items]
      rw [find_dup_aux item, find_dup_aux_items tl]
      simp only [List.append_assoc]
end

/-- A key reported absent by `in` is absent for lookup as well. -/
theorem lookupF_eq_none : ∀ (kvs : Fields) (k : String),
    hasKeyF kvs k = false → lookupF kvs k = none
  | .nil, _, _ => rfl
  | .cons k0 v tl, k, h => by
      simp only [hasKeyF, Bool.or_eq_false_iff] at h
      simp only [lookupF, h.1, Bool.false_eq_true, if_false]
      exact lookupF_eq_none tl k h.2

/-- A string accepted by `isoparse` is nonempty (its year needs a digit). -/
theorem isoparse_data_ne_nil {s : String} {dt : DT} (h : isoparse s = some dt) :
    s.data ≠ [] := by
  intro hnil
  simp [isoparse, hnil, readFixed] at h

/-- Truthiness of a nonempty string. -/
theorem truthy_str {s : String} (h : s.data ≠ []) : truthy (Json.str s) = true := by
  cases hd : s.data with
  | nil => exact absurd hd h
  | cons c cs => simp [truthy, hd]

/-- The formatted datetime string is never empty (it starts with four year
digits), so Python `or` never discards it. -/
theorem fmtDt_ne_empty (dt : DT) : fmtDt dt ≠ "" := by
  intro h
  have hd := congrArg String.data h
  have hlen := congrArg List.length hd
  simp [fmtDt, pad] at hlen

/-- Membership in the accumulated column union. -/
theorem mem_df_columns_aux (rows : List Row) (acc : List String) (c : String) :
    c ∈ rows.foldl (fun acc r => acc ++ (r.map Prod.fst).filter (fun k => !(acc.contains k))) acc
      ↔ c ∈ acc ∨ ∃ r ∈ rows, c ∈ r.map Prod.fst := by
  induction rows generalizing acc with
  | nil => simp
  | cons r rest ih =>
      simp only [List.foldl_cons, ih, List.mem_append, List.mem_filter]
      constructor
      · rintro (((hc | ⟨hc, -⟩) | hc))
        · exact Or.inl hc
        · exact Or.inr ⟨r, List.mem_cons_self r rest, hc⟩
        · rcases hc with ⟨r2, hr2, hcr2⟩
          exact Or.inr ⟨r2, List.mem_cons_of_mem r hr2, hcr2⟩
      · rintro (hc | ⟨r2, hr2, hcr2⟩)
        · exact Or.inl (Or.inl hc)
        · rcases List.mem_cons.mp hr2 with h2 | h2
          · subst h2
            by_cases hacc : c ∈ acc
            · exact Or.inl (Or.inl hacc)
            · exact Or.inl (Or.inr ⟨hcr2, by simp [hacc]⟩)
          · exact Or.inr ⟨r2, h2, hcr2⟩

/-- The header of the assembled file holds exactly the columns used by some
row. -/
theorem mem_df_columns (rows : List Row) (c : String) :
    c ∈ df_columns rows ↔ ∃ r ∈ rows, c ∈ r.map Prod.fst := by
  simpa [df_columns] using mem_df_columns_aux rows [] c

/- ### Concrete fixtures used by counterexamples and witnesses -/

/-- A map node meeting the position criterion. -/
def posFields : Fields :=
  Fields.cons "LatLng" (Json.str "1.5,2.5")
    (Fields.cons "timestamp" (Json.str "2024-01-02T03:04:05Z") Fields.nil)

/-- The same node as a `Json` value. -/
def posNode : Json := Json.obj posFields

/- ### Claim C1 -/

/-- Claim C1, counterexample: `posNode` is a single structural map node
meeting the position criterion, nested as a sequence element of an acyclic
document; `find_positions` reports it twice (the list branch of source line
99 appends it, and the recursive call of line 101 appends it again through
the dict branch of line 88), while the spec-side pre-order walk reports it
once.  This refutes the claim that every such node is reported exactly once
regardless of whether it occurs as a map value or as a sequence element. -/
theorem find_positions_duplicates_sequence_element :
    find_positions (jarr [posNode]) = [posNode, posNode]
      ∧ spec_positions (jarr [posNode]) = [posNode] :=
  ⟨rfl, rfl⟩

/-- Claim C1 (amended): for every acyclic JSON tree, `find_positions` reports
matching map nodes in document pre-order (parent before children, sibling
order preserved), where a matching node occurring as a map value or as the
root is reported exactly once and a matching node occurring directly as a
sequence element is reported exactly twice, adjacently; `dup_positions` is
that reference walk. -/
theorem find_positions_eq_dup_positions (j : Json) :
    find_positions j = dup_positions j :=
  (find_dup_aux j).trans (dup_positions_unfold j).symm

/- ### Claim C6 -/

/-- Claim C6, counterexample: the document `[1]` (a sequence root) yields no
extracted rows — `find_positions` finds nothing and the segment phase emits
nothing — yet the conversion does not take the empty-result warning path: it
reports a caught `AttributeError` (from `data.get` on a list) instead of the
warning.  No file is written, but the situation is treated as an error. -/
theorem convert_error_despite_no_rows :
    convert_timeline (jarr [Json.num 1]) = .errorCaught .attributeError
      ∧ find_positions (jarr [Json.num 1]) = [] :=
  ⟨rfl, rfl⟩

/-- Claim C6 (amended): for every input document on which row extraction
completes without an escaped exception and yields no rows, the conversion
takes the warning path: it logs the empty-result warning, writes no output
file, and returns normally (`Outcome.emptyWarning` is that path, reached by
the early `return` of source line 211 before any file is created). -/
theorem convert_warns_on_empty_extraction (data : Json)
    (h : extract_rows data = .ok []) : convert_timeline data = .emptyWarning := by
  simp [convert_timeline, h]

/-- Claim C6, witness: the empty-map document extracts no rows and lands on
the warning path. -/
theorem convert_warns_on_empty_extraction_witness :
    convert_timeline (jobj []) = .emptyWarning :=
  convert_warns_on_empty_extraction (jobj []) rfl

/- ### Claim C8 -/

/-- Claim C8, counterexample: the empty-sequence root lacks the
`semanticSegments` key, yet the segment extractor does not process an empty
segment sequence — reading the key from a non-map root raises an
`AttributeError`, which the top level treats as an error. -/
theorem segment_read_errors_on_list_root :
    doc_segment_rows (Json.arr Elems.nil) = .error .attributeError :=
  rfl

/-- Claim C8 (amended): for every input document whose top level is a map
lacking the `semanticSegments` key, the segment extractor substitutes the
empty sequence default of `data.get` (source line 133), iterates zero
segments, emits zero segment-derived rows, and raises no error. -/
theorem segment_rows_empty_on_missing_key (kvs : Fields)
    (h : lookupF kvs "semanticSegments" = none) :
    doc_segment_rows (Json.obj kvs) = .ok [] := by
  simp [doc_segment_rows, pyGetJ, h, pyLen, pyIter, elemsList, elemsLength, mapME,
    bind, Except.bind, Except.map, List.flatten, pure, Except.pure]

/-- Claim C8, witness: a map document without the key yields the empty
segment row list. -/
theorem segment_rows_empty_on_missing_key_witness :
    lookupF (Fields.cons "a" Json.null Fields.nil) "semanticSegments" = none
      ∧ doc_segment_rows (Json.obj (Fields.cons "a" Json.null Fields.nil)) = .ok [] :=
  ⟨rfl, segment_rows_empty_on_missing_key (Fields.cons "a" Json.null Fields.nil) rfl⟩

/- ### Claim C4 -/

/-- Claim C4: `parse_datetime` never raises — it is a total function to a
well-formed pair — and (a) the offset-bearing vector formats to the
millisecond rendering with a `+05:00` offset, (b) the empty string yields
`(absent, absent)`, (c) every string the ISO parser rejects yields
`(absent, absent)`. -/
theorem parse_datetime_contract :
    parse_datetime (Json.str "2023-06-01T14:30:00.250+05:00")
        = (some "2023-06-01 14:30:00.250", some "+05:00")
      ∧ parse_datetime (Json.str "") = (none, none)
      ∧ ∀ s : String, isoparse s = none → parse_datetime (Json.str s) = (none, none) := by
  refine ⟨rfl, rfl, fun s h => ?_⟩
  cases ht : truthy (Json.str s) with
  | false => simp [parse_datetime, ht]
  | true => simp [parse_datetime, ht, h]

/-- Claim C4, witness: a garbage string hits the parse-failure branch. -/
theorem parse_datetime_contract_witness :
    parse_datetime (Json.str "garbage") = (none, none) :=
  parse_datetime_contract.2.2 "garbage" rfl

/- ### Claim C5 -/

/-- Claim C5: coordinate cleaning maps `"12.5,-67.25"` and
`"12.5°, -67.25°"` to `(12.5, -67.25)`; any string whose cleaned form does
not split into exactly two float-parsable components yields
`(absent, absent)`, and any non-string input yields `(absent, absent)`,
with no failure escaping. -/
theorem clean_coordinates_contract :
    clean_and_parse_coordinates (Json.str "12.5,-67.25")
        = (some (12.5 : ℚ), some (-67.25 : ℚ))
      ∧ clean_and_parse_coordinates (Json.str "12.5°, -67.25°")
        = (some (12.5 : ℚ), some (-67.25 : ℚ))
      ∧ (∀ s : String,
          ((cleanComps s).length ≠ 2 ∨ ∃ c ∈ cleanComps s, pyFloat c = none) →
          clean_and_parse_coordinates (Json.str s) = (none, none))
      ∧ (∀ j : Json, (∀ s, j ≠ Json.str s) →
          clean_and_parse_coordinates j = (none, none)) := by
  refine ⟨?_, ?_, fun s h => ?_, fun j h => ?_⟩
  · have he : clean_and_parse_coordinates (Json.str "12.5,-67.25")
        = (some (mkRat 125 10), some (mkRat (-6725) 100)) := rfl
    rw [he]
    norm_num [Rat.mkRat_eq_div]
  · have he : clean_and_parse_coordinates (Json.str "12.5°, -67.25°")
        = (some (mkRat 125 10), some (mkRat (-6725) 100)) := rfl
    rw [he]
    norm_num [Rat.mkRat_eq_div]
  · rcases hc : cleanComps s with _ | ⟨a, _ | ⟨b, _ | ⟨c0, rest⟩⟩⟩
    · simp [clean_and_parse_coordinates, hc]
    · simp [clean_and_parse_coordinates, hc]
    · rw [hc] at h
      rcases h with hlen | ⟨c1, hmem, hnone⟩
      · simp at hlen
      · have hab : c1 = a ∨ c1 = b := by simpa using hmem
        cases hpa : pyFloat a with
        | none => simp [clean_and_parse_coordinates, hc, hpa]
        | some qa =>
            cases hpb : pyFloat b with
            | none => simp [clean_and_parse_coordinates, hc, hpb]
            | some qb =>
                rcases hab with h1 | h1 <;> subst h1
                · rw [hpa] at hnone
                  exact absurd hnone (by simp)
                · rw [hpb] at hnone
                  exact absurd hnone (by simp)
    · simp [clean_and_parse_coordinates, hc]
  · exact
      match j, h with
      | .null, _ => rfl
      | .bool _, _ => rfl
      | .num _, _ => rfl
      | .arr _, _ => rfl
      | .obj _, _ => rfl
      | .str s, h => absurd rfl (h s)

/-- Claim C5, witness: a four-component string and a non-string input both
take the degraded branch. -/
theorem clean_coordinates_contract_witness :
    clean_and_parse_coordinates (Json.str "not,a,number,pair") = (none, none)
      ∧ clean_and_parse_coordinates Json.null = (none, none) :=
  ⟨clean_coordinates_contract.2.2.1 "not,a,number,pair" (by decide),
   clean_coordinates_contract.2.2.2 Json.null (fun s h => Json.noConfusion h)⟩

/- ### Claim C10 -/

/-- Claim C10: in a `Position` row, a missing `speedMetersPerSecond` renders
as the number `0` (the `.get` default of source line 126) and a missing
`source` as the empty string (line 125), while missing `accuracyMeters` and
`altitudeMeters` render as the absent marker (lines 123-124) — absence is
not represented uniformly across the position columns. -/
theorem position_absent_field_defaults (kvs : Fields)
    (hsp : hasKeyF kvs "speedMetersPerSecond" = false)
    (hsrc : hasKeyF kvs "source" = false)
    (hacc : hasKeyF kvs "accuracyMeters" = false)
    (halt : hasKeyF kvs "altitudeMeters" = false) :
    rowGet? (position_entry (Json.obj kvs)) "Speed Meters/Second" = some (Val.num 0)
      ∧ rowGet? (position_entry (Json.obj kvs)) "Source" = some (Val.str "")
      ∧ rowGet? (position_entry (Json.obj kvs)) "Accuracy Meters" = some Val.none
      ∧ rowGet? (position_entry (Json.obj kvs)) "Altitude Meters" = some Val.none := by
  have h1 := lookupF_eq_none kvs _ hsp
  have h2 := lookupF_eq_none kvs _ hsrc
  have h3 := lookupF_eq_none kvs _ hacc
  have h4 := lookupF_eq_none kvs _ halt
  refine ⟨?_, ?_, ?_, ?_⟩ <;>
    simp [position_entry, rowGet?, objGetD, objGet, jsonVal, h1, h2, h3, h4, List.find?]

/-- Claim C10, witness: a position node carrying only the two defining keys
gets the number `0`, the empty string, and two absent markers. -/
theorem position_absent_field_defaults_witness :
    rowGet? (position_entry posNode) "Speed Meters/Second" = some (Val.num 0)
      ∧ rowGet? (position_entry posNode) "Source" = some (Val.str "")
      ∧ rowGet? (position_entry posNode) "Accuracy Meters" = some Val.none
      ∧ rowGet? (position_entry posNode) "Altitude Meters" = some Val.none :=
  position_absent_field_defaults posFields rfl rfl rfl rfl

/- ### Claim C9 -/

/-- Claim C9: a timestamp that parses but carries no UTC offset yields the
formatted time paired with the empty string (not the absent marker), and a
timeline-path point with such a timestamp keeps its own `Time` while its
`Time Offset` falls back to the segment's start offset (the empty string is
falsy for Python `or`, the nonempty formatted time is not). -/
theorem offsetless_parse_and_fallback (s : String) (dt : DT)
    (hp : isoparse s = some dt) (htz : dt.tz = none)
    (st so et eo : Option String) (pt : Json) :
    parse_datetime (Json.str s) = (some (fmtDt dt), some "")
      ∧ rowGet? (path_entry st so et eo pt (Json.str s)) "Time"
          = some (Val.str (fmtDt dt))
      ∧ rowGet? (path_entry st so et eo pt (Json.str s)) "Time Offset"
          = some (optStrVal so) := by
  have ht := truthy_str (isoparse_data_ne_nil hp)
  have hpd : parse_datetime (Json.str s) = (some (fmtDt dt), some "") := by
    simp [parse_datetime, ht, hp, htz, zfmt]
  refine ⟨hpd, ?_, ?_⟩
  · simp [path_entry, hpd, rowGet?, pyOr, optStrVal, fmtDt_ne_empty dt]
  · simp [path_entry, hpd, rowGet?, pyOr, optStrVal]

/-- Claim C9, witness: an offset-less timestamp keeps its own time and
inherits the start offset. -/
theorem offsetless_parse_and_fallback_witness :
    parse_datetime (Json.str "2024-05-06T07:08:09.5")
        = (some "2024-05-06 07:08:09.500", some "")
      ∧ rowGet? (path_entry (some "2024-01-01 00:00:00.000") (some "+09:00") none none
            (Json.str "1.5,2.5") (Json.str "2024-05-06T07:08:09.5")) "Time"
          = some (Val.str "2024-05-06 07:08:09.500")
      ∧ rowGet? (path_entry (some "2024-01-01 00:00:00.000") (some "+09:00") none none
            (Json.str "1.5,2.5") (Json.str "2024-05-06T07:08:09.5")) "Time Offset"
          = some (Val.str "+09:00") :=
  offsetless_parse_and_fallback "2024-05-06T07:08:09.5" ⟨2024, 5, 6, 7, 8, 9, 500000, none⟩
    rfl rfl (some "2024-01-01 00:00:00.000") (some "+09:00") none none (Json.str "1.5,2.5")

/- ### Claim C7 -/

/-- Claim C7: for every run that writes a file, the written header is exactly
the union of the column names used by any emitted row of the whole run
(columns are fixed at `DataFrame` construction, before the sort), and a
column a row does not use is rendered as the empty cell in that row's line. -/
theorem written_header_is_union (data : Json) (rows : List Row)
    (hex : extract_rows data = .ok rows) (hne : rows ≠ []) :
    convert_timeline data = .written (toCsv rows)
      ∧ (∀ c : String, c ∈ (toCsv rows).header ↔ ∃ r ∈ rows, c ∈ r.map Prod.fst)
      ∧ (toCsv rows).lines
          = (sortRows rows).map
              (fun r => (toCsv rows).header.map (fun c => renderCell (rowGet? r c)))
      ∧ renderCell Option.none = "" := by
  refine ⟨?_, fun c => mem_df_columns rows c, rfl, rfl⟩
  cases rows with
  | nil => exact absurd rfl hne
  | cons r rest => simp [convert_timeline, hex]

/-- Claim C7, witness: a one-position run writes a file whose header is the
union of that row's columns. -/
theorem written_header_is_union_witness :
    convert_timeline (jobj [("p", posNode)]) = .written (toCsv [position_entry posNode])
      ∧ (∀ c : String, c ∈ (toCsv [position_entry posNode]).header
          ↔ ∃ r ∈ [position_entry posNode], c ∈ r.map Prod.fst)
      ∧ (toCsv [position_entry posNode]).lines
          = (sortRows [position_entry posNode]).map
              (fun r => (toCsv [position_entry posNode]).header.map
                (fun c => renderCell (rowGet? r c)))
      ∧ renderCell Option.none = "" :=
  written_header_is_union (jobj [("p", posNode)]) [position_entry posNode] rfl (by simp)

/- ### Claim C3 -/

/-- A parsed timestamp makes `parse_datetime` return its formatted rendering
(with some offset string). -/
theorem parse_datetime_some {s : String} {dt : DT} (hp : isoparse s = some dt) :
    ∃ off, parse_datetime (Json.str s) = (some (fmtDt dt), some off) := by
  have ht := truthy_str (isoparse_data_ne_nil hp)
  simp [parse_datetime, ht, hp]

/-- A missing timestamp value parses to the absent pair. -/
theorem parse_datetime_null : parse_datetime Json.null = (none, none) := rfl

/-- A concrete visit sub-record (hierarchy, probability, top candidate). -/
def visitC3 : Json :=
  jobj [("hierarchyLevel", Json.num 0),
        ("probability", Json.num (mkRat 9 10)),
        ("topCandidate",
          jobj [("placeId", Json.str "abc"),
                ("semanticType", Json.str "Home"),
                ("probability", Json.num (mkRat 8 10)),
                ("placeLocation", jobj [("latLng", Json.str "10.5°, 20.5°")])])]

/-- A concrete activity sub-record (endpoints, distance, top candidate). -/
def activityC3 : Json :=
  jobj [("start", jobj [("latLng", Json.str "1.5,2.5")]),
        ("end", jobj [("latLng", Json.str "3.5,4.5")]),
        ("distanceMeters", Json.num 100),
        ("topCandidate",
          jobj [("type", Json.str "walking"), ("probability", Json.num (mkRat 7 10))])]

/-- A semantic segment with a start time, an end time, two timeline-path
points — the first with its own time, the second without — a visit
sub-record, and an activity sub-record. -/
def segC3 (stS etS tS : String) (pt1 pt2 : Json) : Json :=
  jobj [("startTime", Json.str stS),
        ("endTime", Json.str etS),
        ("timelinePath",
          jarr [jobj [("point", pt1), ("time", Json.str tS)],
                jobj [("point", pt2)]]),
        ("visit", visitC3),
        ("activity", activityC3)]

/-- Claim C3: a segment with a start time, an end time, two timeline-path
points (one with its own parseable time, one without), a visit and an
activity produces exactly 4 rows, in order: a `Timeline Path` row whose
`Time` is the point's own parsed time, a `Timeline Path` row whose `Time`
falls back to the segment's start time, a `Visit` row and an `Activity` row
both using the segment's start time — path, visit and activity extraction
are independent, not mutually exclusive. -/
theorem segment_rows_independent_four (stS etS tS : String) (pt1 pt2 : Json)
    (dtS dtT : DT) (hS : isoparse stS = some dtS) (hT : isoparse tS = some dtT) :
    (segment_rows (segC3 stS etS tS pt1 pt2)).map
        (fun rows => rows.map (fun r => (rowGet? r "Segment Type", rowGet? r "Time")))
      = .ok [(some (Val.str "Timeline Path"), some (Val.str (fmtDt dtT))),
             (some (Val.str "Timeline Path"), some (Val.str (fmtDt dtS))),
             (some (Val.str "Visit"), some (Val.str (fmtDt dtS))),
             (some (Val.str "Activity"), some (Val.str (fmtDt dtS)))] := by
  obtain ⟨offS, hpdS⟩ := parse_datetime_some hS
  obtain ⟨offT, hpdT⟩ := parse_datetime_some hT
  simp [segC3, visitC3, activityC3, jobj, jarr, segment_rows, pyGetJ, lookupF,
    pyLen, pyIter, elemsList, elemsLength, mapME, path_row, path_entry,
    visit_row, activity_row, hpdS, hpdT, truthy, bind, Except.bind, pure,
    Except.pure, Except.map, rowGet?, List.find?, pyOr, optStrVal,
    parse_datetime_null, fmtDt_ne_empty dtT]

/-- Claim C3, witness: the four rows of a fully populated segment, at
concrete timestamps. -/
theorem segment_rows_independent_four_witness :
    (segment_rows (segC3 "2024-01-02T03:04:05.000+01:00" "2024-01-02T04:05:06.000+01:00"
          "2024-01-02T03:30:00.000+01:00" (Json.str "10.5,20.5") (Json.str "11.5,21.5"))).map
        (fun rows => rows.map (fun r => (rowGet? r "Segment Type", rowGet? r "Time")))
      = .ok [(some (Val.str "Timeline Path"), some (Val.str "2024-01-02 03:30:00.000")),
             (some (Val.str "Timeline Path"), some (Val.str "2024-01-02 03:04:05.000")),
             (some (Val.str "Visit"), some (Val.str "2024-01-02 03:04:05.000")),
             (some (Val.str "Activity"), some (Val.str "2024-01-02 03:04:05.000"))] :=
  segment_rows_independent_four "2024-01-02T03:04:05.000+01:00"
    "2024-01-02T04:05:06.000+01:00" "2024-01-02T03:30:00.000+01:00"
    (Json.str "10.5,20.5") (Json.str "11.5,21.5")
    ⟨2024, 1, 2, 3, 4, 5, 0, some 60⟩ ⟨2024, 1, 2, 3, 30, 0, 0, some 60⟩ rfl rfl
